import Mathlib

/-!
Verification of the YAGA involute-gear generator against its specification.

The definitions below are a shallow embedding of the Python source:

* `src/commands/spur_gear/spur_gear.py` (`SpurGear.create_component` and the
  involute-construction helpers),
* `src/commands/spur_gear/entry.py` (`command_run`, `command_validate_input`),
* `src/commands/rack/entry.py` (`command_validate_input`),
* `src/lib/fusion360utils/mirror.py` (`mirror_sketch_spline`).

Machine floats are embedded as real numbers; symbolic Fusion-360 dimension
expressions are embedded as the real-valued functions they evaluate to.
Angles are in radians unless a name says `deg`.  Internal length values are in
the host's internal unit (cm), matching `unitsManager.evaluateExpression`.
-/

noncomputable section

namespace YAGA

/-! ## Diameter / parameter derivation (spur_gear.py lines 44-120, entry.py 122-128) -/

/-- `dedendum = 1.25 * module` (spur_gear.py line 45). -/
def dedendum (module : ℝ) : ℝ := 1.25 * module

/-- `pitch = math.pi * module` (spur_gear.py line 49). -/
def pitch (module : ℝ) : ℝ := Real.pi * module

/-- `tooth_thickness = pitch / 2` (spur_gear.py line 53). -/
def tooth_thickness (module : ℝ) : ℝ := pitch module / 2

/-- `half_tooth_thickness_expr = tooth_thickness / 2` (spur_gear.py line 55). -/
def half_tooth_thickness (module : ℝ) : ℝ := tooth_thickness module / 2

/-- `pitch_diameter = number_of_teeth * module` (spur_gear.py line 71). -/
def pitch_diameter (number_of_teeth module : ℝ) : ℝ := number_of_teeth * module

/-- `root_diameter = pitch_diameter - (2 * dedendum)` (spur_gear.py line 83). -/
def root_diameter (number_of_teeth module : ℝ) : ℝ :=
  pitch_diameter number_of_teeth module - 2 * dedendum module

/-- `base_diameter = pitch_diameter * math.cos(pressure_angle)` (spur_gear.py line 99). -/
def base_diameter (number_of_teeth module pressure_angle : ℝ) : ℝ :=
  pitch_diameter number_of_teeth module * Real.cos pressure_angle

/-- The numeric value computed at spur_gear.py line 111:
`outside_diameter = (pitch_diameter + 2) * module`. -/
def outside_diameter_num (number_of_teeth module : ℝ) : ℝ :=
  (pitch_diameter number_of_teeth module + 2) * module

/-- The value of the dimension expression built at spur_gear.py line 112,
`( pitch_diameter_expr + (2 * module_expr) )`, which drives the sketch
dimension of the outside circle.  The same formula appears numerically in
entry.py line 127 as `(number_of_teeth + 2) * module`. -/
def outside_diameter (number_of_teeth module : ℝ) : ℝ :=
  pitch_diameter number_of_teeth module + 2 * module

/-- Value of `backlash_angle_expr` (spur_gear.py line 80):
`(backlash / 4 / (PI * pitch_diameter)) * 360 deg`, in degrees. -/
def backlash_angle (backlash pitch_d : ℝ) : ℝ :=
  backlash / 4 / (Real.pi * pitch_d) * 360

/-- Value of `involute_curve_mirror_offset_angle_expr` (spur_gear.py lines 153-155):
`( (half_tooth_thickness / (PI * root_diameter)) * 360 deg - backlash_angle )`,
in degrees. -/
def involute_curve_mirror_offset_angle (number_of_teeth module backlash : ℝ) : ℝ :=
  half_tooth_thickness module / (Real.pi * root_diameter number_of_teeth module) * 360 -
    backlash_angle backlash (pitch_diameter number_of_teeth module)

/-! ## Involute curve construction
(spur_gear.py `__create_involute_curve_radius_construction_lines`, lines 362-405,
and `__create_involute_curve`, lines 407-463; `tangent_line_count = 10`,
`tangent_line_interval_deg = 5`, spur_gear.py lines 157-158). -/

/-- Angular dimension, in degrees, placed between `radius_lines[0]` and
`radius_lines[i]` (spur_gear.py lines 392-401): nothing for `i = 0` (the first
line is dimensioned against the mirror line instead), and
`(i + 1) * tangent_line_interval_deg` for `i ≥ 1`. -/
def radius_line_angle_deg (i : ℕ) : ℝ :=
  if i = 0 then 0 else (i + 1) * 5

/-- The same angle converted to radians. -/
def radius_line_angle_rad (i : ℕ) : ℝ :=
  radius_line_angle_deg i * Real.pi / 180

/-- Length dimension placed on the tangent line of sample `i`
(spur_gear.py lines 451-459): sample 0 is the endpoint of the first radius line
itself (arclength 0, spur_gear.py line 439), and sample `i ≥ 1` lies at
`(i + 1) * PI * base_diameter * (5 deg / 360 deg)` along its tangent line. -/
def tangent_length (base_d : ℝ) (i : ℕ) : ℝ :=
  if i = 0 then 0 else (i + 1) * Real.pi * base_d * (5 / 360)

/-- Geometric semantics of the sketch constraints on sample `i`: the radius
line ends on the base circle (radius `base_d / 2`) at angle
`phi0 + s * radius_line_angle_rad i` from the x-axis (`phi0` is the mirror
offset angle, `s = ±1` the clockwise/counterclockwise sign, spur_gear.py
lines 373-376 and 434-437), and the sample point sits `tangent_length base_d i`
along the line tangent to the base circle at that endpoint. -/
def involute_sample (base_d phi0 s : ℝ) (i : ℕ) : ℝ × ℝ :=
  let r := base_d / 2
  let θ := phi0 + s * radius_line_angle_rad i
  (r * Real.cos θ - s * tangent_length base_d i * Real.sin θ,
   r * Real.sin θ + s * tangent_length base_d i * Real.cos θ)

/-- Distance of the `i`-th involute sample point from the gear center. -/
def sample_radial_distance (base_d phi0 s : ℝ) (i : ℕ) : ℝ :=
  Real.sqrt ((involute_sample base_d phi0 s i).1 ^ 2 +
    (involute_sample base_d phi0 s i).2 ^ 2)

/-! ## Profile mirroring (src/lib/fusion360utils/mirror.py) -/

/-- The reflection applied to each fit point by `mirror_sketch_spline`
(mirror.py lines 9-29): the mirror line runs from `(x1, y1)` to `(x2, y2)`;
`a = y2 - y1`, `b = -(x2 - x1)`, `c = -a*x1 - b*y1`, normalized by
`m = sqrt(a² + b²)`; the reflected point is
`(px - 2*a_p*d, py - 2*b_p*d)` with `d = a_p*px + b_p*py + c_p`. -/
def mirror_point (x1 y1 x2 y2 : ℝ) (p : ℝ × ℝ) : ℝ × ℝ :=
  let a := y2 - y1
  let b := -(x2 - x1)
  let c := -a * x1 - b * y1
  let m := Real.sqrt (a * a + b * b)
  let ap := a / m
  let bp := b / m
  let cp := c / m
  let d := ap * p.1 + bp * p.2 + cp
  (p.1 - 2 * ap * d, p.2 - 2 * bp * d)

/-- `mirror_sketch_spline` (mirror.py lines 5-31) on the list of fit points:
each point's x and y are reflected with `mirror_point`; the z-coordinate of
every output point is `z1`, the z of the mirror line's start point
(mirror.py line 13 and line 30 — the input point's own z is discarded). -/
def mirror_sketch_spline (x1 y1 z1 x2 y2 : ℝ) (pts : List (ℝ × ℝ × ℝ)) :
    List (ℝ × ℝ × ℝ) :=
  pts.map fun p =>
    ((mirror_point x1 y1 x2 y2 (p.1, p.2.1)).1,
     (mirror_point x1 y1 x2 y2 (p.1, p.2.1)).2, z1)

/-! ## Input validation
(rack/entry.py `command_validate_input`, lines 214-306, and
spur_gear/entry.py `command_validate_input`, lines 312-320). -/

/-- The rejection reasons of the rack `command_validate_input`, one per
`return` that sets `areInputsValid = False`, in source order; each carries the
error-message text set on the dialog (rack/entry.py lines 228-297). -/
inductive RackError where
  | nameRequired
  | nameInvalid
  | nameTaken
  | pressureAngleNegative
  | pressureAngleTooLarge
  | pressureAngleInvalid
  | teethTooFew
  | teethInvalid
  | filletInvalid
  | moduleInvalid
  | thicknessInvalid
  | backlashInvalid
  | filletTooLarge
  deriving DecidableEq

/-- The dialog state read by the rack `command_validate_input`: the numeric
`.value` fields (internal units: cm and radians) and, as booleans, the results
of the host-API validity queries the code consults (`is_valid_name`,
`is_name_taken`, and each input's `isValid and isValidExpression`). -/
structure RackInputs where
  name : String
  name_valid : Bool
  name_taken : Bool
  pressure_angle : ℝ
  pressure_angle_ok : Bool
  number_of_teeth : ℝ
  number_of_teeth_ok : Bool
  root_fillet_radius : ℝ
  root_fillet_radius_ok : Bool
  module : ℝ
  module_ok : Bool
  thickness_ok : Bool
  backlash_ok : Bool

/-- Transliteration of the rack `command_validate_input` check cascade
(rack/entry.py lines 227-302): `none` means the inputs are accepted
(`areInputsValid = True`); `some e` is the first failing check.  The pressure
angle is compared against `math.radians(0) = 0` and `math.radians(45) = π/4`;
the fillet bound is `tooth_thickness * 0.4` with
`tooth_thickness = (π * module) / 2` (lines 291-293). -/
def rack_validate (inp : RackInputs) : Option RackError :=
  if inp.name.length = 0 then some RackError.nameRequired
  else if inp.name_valid = false then some RackError.nameInvalid
  else if inp.name_taken = true then some RackError.nameTaken
  else if inp.pressure_angle < 0 then some RackError.pressureAngleNegative
  else if inp.pressure_angle > Real.pi / 4 then some RackError.pressureAngleTooLarge
  else if inp.pressure_angle_ok = false then some RackError.pressureAngleInvalid
  else if inp.number_of_teeth < 1 then some RackError.teethTooFew
  else if inp.number_of_teeth_ok = false then some RackError.teethInvalid
  else if inp.root_fillet_radius_ok = false then some RackError.filletInvalid
  else if inp.module_ok = false then some RackError.moduleInvalid
  else if inp.thickness_ok = false then some RackError.thicknessInvalid
  else if inp.backlash_ok = false then some RackError.backlashInvalid
  else if inp.root_fillet_radius > tooth_thickness inp.module * 0.4 then
    some RackError.filletTooLarge
  else none

/-- Transliteration of the spur-gear `command_validate_input`
(spur_gear/entry.py lines 316-320): the inputs are accepted exactly when the
pressure angle value is ≥ 0; nothing else is checked. -/
def spur_gear_inputs_valid (pressure_angle : ℝ) : Prop :=
  pressure_angle ≥ 0

/-- Rack inputs for the concrete C8 scenario, in internal cm units:
module 5 mm, root fillet radius 4 mm, pressure angle 20° (π/9), 10 teeth,
every host validity flag true. -/
def c8_inputs : RackInputs :=
  ⟨"Rack1", true, false, Real.pi / 9, true, 10, true, 0.4, true, 0.5, true, true, true⟩

/-- Rack inputs exhibiting the C9 boundary gap: pressure angle exactly 0,
10 teeth, module 5 mm, root fillet radius 1 mm, every host validity flag
true. -/
def c9_inputs : RackInputs :=
  ⟨"Rack1", true, false, 0, true, 10, true, 0.1, true, 0.5, true, true, true⟩

/-! ## Claim theorems on the derivation layer -/

/-- Claim C1: the outside diameter derived by the generator equals
`pitch_diameter + 2 * module = (number_of_teeth + 2) * module`, 110 mm for
module 5 mm and 20 teeth.  The dimension-expression value (line 112 and
entry.py line 127) satisfies this, but the numeric variable computed at
spur_gear.py line 111 is `(pitch_diameter + 2) * module`, which disagrees
with the code's own adjacent expression: at number_of_teeth = 20 and
module = 5 (mm) it yields 510 instead of 110. -/
theorem C1_outside_diameter_numeric_vs_expression :
    outside_diameter 20 5 = 110 ∧
    outside_diameter 20 5 = (20 + 2) * 5 ∧
    outside_diameter_num 20 5 = 510 ∧
    outside_diameter_num 20 5 ≠ outside_diameter 20 5 := by
  refine ⟨?_, ?_, ?_, ?_⟩ <;>
    norm_num [outside_diameter, outside_diameter_num, pitch_diameter]

/-- Claim C2, counterexample: with number_of_teeth = 6, module = 1 and
pressure_angle = π/3 (a valid parameter set: 6 ≥ 1, 1 > 0, 0 < π/3 < π/2)
the root diameter is 3.5 while the base diameter is 6 · cos(π/3) = 3, so
`root_diameter < base_diameter` fails. -/
theorem C2_counterexample :
    (1 ≤ (6 : ℝ)) ∧ (0 < (1 : ℝ)) ∧ 0 < Real.pi / 3 ∧ Real.pi / 3 < Real.pi / 2 ∧
    ¬ root_diameter 6 1 < base_diameter 6 1 (Real.pi / 3) := by
  have hπ := Real.pi_pos
  refine ⟨by norm_num, by norm_num, by positivity, by linarith, ?_⟩
  rw [root_diameter, base_diameter, pitch_diameter, dedendum, Real.cos_pi_div_three]
  norm_num

/-- Claim C2, amended: for valid parameters (number_of_teeth ≥ 1, module > 0,
0 < pressure_angle < 90°), `base_diameter ≤ pitch_diameter < outside_diameter`
always holds — with no further condition — while `root_diameter <
base_diameter` holds under the additional hypothesis
`number_of_teeth * (1 - cos pressure_angle) < 2.5` (which the counterexample
shows cannot be dropped). -/
theorem C2_diameter_ordering_amended (n m pa : ℝ) (hn : 1 ≤ n) (hm : 0 < m)
    (hpa0 : 0 < pa) (hpa1 : pa < Real.pi / 2) :
    base_diameter n m pa ≤ pitch_diameter n m ∧
    pitch_diameter n m < outside_diameter n m ∧
    (n * (1 - Real.cos pa) < 2.5 → root_diameter n m < base_diameter n m pa) := by
  have hnm : 0 < n * m := mul_pos (lt_of_lt_of_le one_pos hn) hm
  have hcos : Real.cos pa ≤ 1 := Real.cos_le_one pa
  refine ⟨?_, ?_, ?_⟩
  · rw [base_diameter, pitch_diameter]
    nlinarith [hnm, hcos]
  · rw [outside_diameter, pitch_diameter]
    nlinarith [hm]
  · intro hsmall
    rw [root_diameter, base_diameter, pitch_diameter, dedendum]
    have hfac : 0 < m * (2.5 - n * (1 - Real.cos pa)) :=
      mul_pos hm (by linarith)
    nlinarith [hfac]

/-- Witness for C2: the amended ordering at number_of_teeth = 2, module = 1,
pressure_angle = π/3, where 2 · (1 - cos(π/3)) = 1 < 2.5, so the full chain
root < base ≤ pitch < outside holds. -/
theorem C2_diameter_ordering_witness :
    base_diameter 2 1 (Real.pi / 3) ≤ pitch_diameter 2 1 ∧
    pitch_diameter 2 1 < outside_diameter 2 1 ∧
    root_diameter 2 1 < base_diameter 2 1 (Real.pi / 3) := by
  have h := C2_diameter_ordering_amended 2 1 (Real.pi / 3) (by norm_num)
    (by norm_num) (by positivity) (by linarith [Real.pi_pos])
  exact ⟨h.1, h.2.1, h.2.2 (by rw [Real.cos_pi_div_three]; norm_num)⟩


/-- The squared distance of a sample from the center is `r_b² + L²`:
the tangent line is perpendicular to the radius at its point of tangency. -/
theorem sample_radial_distance_sq (base_d phi0 s : ℝ) (hs : s ^ 2 = 1) (i : ℕ) :
    (involute_sample base_d phi0 s i).1 ^ 2 + (involute_sample base_d phi0 s i).2 ^ 2 =
      (base_d / 2) ^ 2 + tangent_length base_d i ^ 2 := by
  rw [involute_sample]
  set θ := phi0 + s * radius_line_angle_rad i with hθ
  have hpyth := Real.sin_sq_add_cos_sq θ
  simp only
  linear_combination ((base_d / 2) ^ 2 + s ^ 2 * tangent_length base_d i ^ 2) * hpyth +
    tangent_length base_d i ^ 2 * hs

/-- Claim C3, counterexample: the radius construction line of sample index
`i = 1` is dimensioned at `(1 + 1) * 5 = 10` degrees from the first radius
line, not at `i * Δθ = 5` degrees, and (for base diameter 1) its sample point
is dimensioned at arclength `2 * π * 1 * (5 / 360)` along the tangent, not at
`1 * π * 1 * (5 / 360)`. -/
theorem C3_counterexample :
    radius_line_angle_deg 1 ≠ 1 * 5 ∧
    tangent_length 1 1 ≠ 1 * Real.pi * 1 * (5 / 360) := by
  have hπ := Real.pi_pos
  constructor
  · rw [radius_line_angle_deg]
    norm_num
  · rw [tangent_length]
    norm_num
    intro h
    nlinarith [h]

/-- Claim C3, amended: for sample index `i` with `1 ≤ i < 10` the radius
construction line is placed at angle `(i + 1) * Δθ` (Δθ = 5°) from the first
radius line, and the `i`-th involute sample lies at arclength
`(i + 1) * π * base_diameter * (Δθ / 360°)` from its point of tangency; sample
0 is the first radius line's endpoint itself (angle 0, arclength 0).  In all
cases the arclength equals `(base_diameter / 2)` times the tangency angle in
radians — the involute unrolling relation. -/
theorem C3_involute_sampling_amended (base_d : ℝ) (i : ℕ) (h1 : 1 ≤ i) (h2 : i < 10) :
    radius_line_angle_deg i = (i + 1) * 5 ∧
    tangent_length base_d i = (i + 1) * Real.pi * base_d * (5 / 360) ∧
    radius_line_angle_deg 0 = 0 ∧ tangent_length base_d 0 = 0 ∧
    tangent_length base_d i = base_d / 2 * radius_line_angle_rad i := by
  have hi0 : i ≠ 0 := by omega
  refine ⟨?_, ?_, ?_, ?_, ?_⟩
  · rw [radius_line_angle_deg, if_neg hi0]
  · rw [tangent_length, if_neg hi0]
  · rw [radius_line_angle_deg, if_pos rfl]
  · rw [tangent_length, if_pos rfl]
  · rw [tangent_length, if_neg hi0, radius_line_angle_rad, radius_line_angle_deg, if_neg hi0]
    ring

/-- Witness for C3: the amended relations at base diameter 1 and sample 1. -/
theorem C3_involute_sampling_witness :
    radius_line_angle_deg 1 = (((1 : ℕ) : ℝ) + 1) * 5 ∧
    tangent_length 1 1 = (((1 : ℕ) : ℝ) + 1) * Real.pi * 1 * (5 / 360) ∧
    radius_line_angle_deg 0 = 0 ∧ tangent_length 1 0 = 0 ∧
    tangent_length 1 1 = 1 / 2 * radius_line_angle_rad 1 :=
  C3_involute_sampling_amended 1 1 (by norm_num) (by norm_num)

/-- Claim C4, counterexample: with number_of_teeth = 20, module = 5 and a
nonzero backlash of 1, the mirror offset angle the generator applies is not
`(half_tooth_thickness / (π * root_diameter)) * 360°`: the backlash angle
`(1 / 4 / (π * 100)) * 360°` is subtracted from it (spur_gear.py lines 80 and
153-155). -/
theorem C4_counterexample :
    involute_curve_mirror_offset_angle 20 5 1 ≠
      half_tooth_thickness 5 / (Real.pi * root_diameter 20 5) * 360 := by
  have hπ := Real.pi_pos
  rw [involute_curve_mirror_offset_angle, ne_eq, sub_eq_self, backlash_angle,
    pitch_diameter]
  exact ne_of_gt (by positivity)

/-- Claim C4, amended: the applied mirror offset angle equals
`(half_tooth_thickness / (π * root_diameter)) * 360°` (with root_diameter, not
base or pitch diameter, in the denominator) exactly when the backlash is zero;
for nonzero backlash and nonzero pitch diameter it differs by the backlash
angle. -/
theorem C4_mirror_offset_amended (n m b : ℝ) (hb : b ≠ 0)
    (hpd : pitch_diameter n m ≠ 0) :
    involute_curve_mirror_offset_angle n m 0 =
      half_tooth_thickness m / (Real.pi * root_diameter n m) * 360 ∧
    involute_curve_mirror_offset_angle n m b ≠
      half_tooth_thickness m / (Real.pi * root_diameter n m) * 360 := by
  have hπ : Real.pi ≠ 0 := ne_of_gt Real.pi_pos
  constructor
  · rw [involute_curve_mirror_offset_angle, backlash_angle]
    simp
  · rw [involute_curve_mirror_offset_angle, ne_eq, sub_eq_self, backlash_angle]
    intro h
    apply hb
    have hπpd : Real.pi * pitch_diameter n m ≠ 0 := mul_ne_zero hπ hpd
    field_simp [hπpd] at h

/-- Witness for C4: the amended statement at number_of_teeth = 20, module = 5,
backlash = 1. -/
theorem C4_mirror_offset_witness :
    involute_curve_mirror_offset_angle 20 5 0 =
      half_tooth_thickness 5 / (Real.pi * root_diameter 20 5) * 360 ∧
    involute_curve_mirror_offset_angle 20 5 1 ≠
      half_tooth_thickness 5 / (Real.pi * root_diameter 20 5) * 360 :=
  C4_mirror_offset_amended 20 5 1 (by norm_num)
    (by rw [pitch_diameter]; norm_num)

/-- Claim C10: the mirror offset angle actually applied equals
`(half_tooth_thickness / (π * root_diameter)) * 360°` minus
`(backlash / 4 / (π * pitch_diameter)) * 360°`; at backlash 0 it equals the
first term exactly, and a positive backlash strictly decreases it. -/
theorem C10_backlash_offset (n m b : ℝ) (hn : 0 < n) (hm : 0 < m) :
    involute_curve_mirror_offset_angle n m b =
      half_tooth_thickness m / (Real.pi * root_diameter n m) * 360 -
        b / 4 / (Real.pi * pitch_diameter n m) * 360 ∧
    involute_curve_mirror_offset_angle n m 0 =
      half_tooth_thickness m / (Real.pi * root_diameter n m) * 360 ∧
    (0 < b →
      involute_curve_mirror_offset_angle n m b <
        involute_curve_mirror_offset_angle n m 0) := by
  have hpd : 0 < pitch_diameter n m := mul_pos hn hm
  refine ⟨rfl, ?_, ?_⟩
  · rw [involute_curve_mirror_offset_angle, backlash_angle]
    simp
  · intro hb
    rw [involute_curve_mirror_offset_angle, involute_curve_mirror_offset_angle,
      backlash_angle, backlash_angle]
    have hpos : 0 < b / 4 / (Real.pi * pitch_diameter n m) * 360 := by
      have hπ := Real.pi_pos
      positivity
    simp only [zero_div, zero_sub, sub_lt_sub_iff_left]
    linarith

/-- Witness for C10: the backlash relations at number_of_teeth = 20,
module = 5, backlash = 1. -/
theorem C10_backlash_offset_witness :
    involute_curve_mirror_offset_angle 20 5 1 =
      half_tooth_thickness 5 / (Real.pi * root_diameter 20 5) * 360 -
        1 / 4 / (Real.pi * pitch_diameter 20 5) * 360 ∧
    involute_curve_mirror_offset_angle 20 5 0 =
      half_tooth_thickness 5 / (Real.pi * root_diameter 20 5) * 360 ∧
    (0 < (1 : ℝ) →
      involute_curve_mirror_offset_angle 20 5 1 <
        involute_curve_mirror_offset_angle 20 5 0) :=
  C10_backlash_offset 20 5 1 (by norm_num) (by norm_num)

/-- The tangent arclength dimension is nonnegative for a positive base
diameter. -/
theorem tangent_length_nonneg (base_d : ℝ) (hd : 0 < base_d) (i : ℕ) :
    0 ≤ tangent_length base_d i := by
  rw [tangent_length]
  split
  · exact le_refl 0
  · have hπ := Real.pi_pos
    positivity

/-- The tangent arclength dimensions strictly increase with the sample index. -/
theorem tangent_length_strict_mono (base_d : ℝ) (hd : 0 < base_d) (i j : ℕ)
    (hij : i < j) : tangent_length base_d i < tangent_length base_d j := by
  have hπ := Real.pi_pos
  have hj0 : j ≠ 0 := by omega
  rw [tangent_length, tangent_length, if_neg hj0]
  by_cases hi0 : i = 0
  · rw [if_pos hi0]
    positivity
  · rw [if_neg hi0]
    have hcast : (i : ℝ) + 1 < (j : ℝ) + 1 := by
      have : (i : ℝ) < j := by exact_mod_cast hij
      linarith
    have hfac : 0 < Real.pi * base_d * (5 / 360) := by positivity
    calc ((i : ℝ) + 1) * Real.pi * base_d * (5 / 360)
        = ((i : ℝ) + 1) * (Real.pi * base_d * (5 / 360)) := by ring
      _ < ((j : ℝ) + 1) * (Real.pi * base_d * (5 / 360)) := by
          exact mul_lt_mul_of_pos_right hcast hfac
      _ = ((j : ℝ) + 1) * Real.pi * base_d * (5 / 360) := by ring

/-- Claim C7: for a valid configuration (positive base diameter), the involute
sample sequence is strictly increasing in radial distance from the gear center
as the sample index increases from 0 to K - 1 = 9, for either flank direction
(`s = ±1`) and any mirror offset angle. -/
theorem C7_involute_radial_monotone (base_d phi0 s : ℝ) (hd : 0 < base_d)
    (hs : s ^ 2 = 1) (i j : ℕ) (hij : i < j) (hj : j < 10) :
    sample_radial_distance base_d phi0 s i < sample_radial_distance base_d phi0 s j := by
  rw [sample_radial_distance, sample_radial_distance]
  apply Real.sqrt_lt_sqrt
  · positivity
  · rw [sample_radial_distance_sq base_d phi0 s hs i,
      sample_radial_distance_sq base_d phi0 s hs j]
    have hLi := tangent_length_nonneg base_d hd i
    have hL := tangent_length_strict_mono base_d hd i j hij
    have : tangent_length base_d i ^ 2 < tangent_length base_d j ^ 2 := by
      nlinarith [hLi, hL]
    linarith

/-- Witness for C7: samples 0 and 1 at base diameter 1, offset 0, clockwise
sign. -/
theorem C7_involute_radial_monotone_witness :
    sample_radial_distance 1 0 1 0 < sample_radial_distance 1 0 1 1 :=
  C7_involute_radial_monotone 1 0 1 (by norm_num) (by norm_num) 0 1
    (by norm_num) (by norm_num)


/-- Claim C5: for any 2D point and any mirror line given by two distinct
points, applying the reflection of `mirror_sketch_spline` twice returns the
original point exactly (in exact real arithmetic). -/
theorem C5_mirror_involution (x1 y1 x2 y2 px py : ℝ) (h : (x1, y1) ≠ (x2, y2)) :
    mirror_point x1 y1 x2 y2 (mirror_point x1 y1 x2 y2 (px, py)) = (px, py) := by
  have hne : y2 - y1 ≠ 0 ∨ x2 - x1 ≠ 0 := by
    by_contra hc
    push_neg at hc
    obtain ⟨h1, h2⟩ := hc
    apply h
    have hx : x1 = x2 := by have := sub_eq_zero.mp h2; linarith
    have hy : y1 = y2 := by have := sub_eq_zero.mp h1; linarith
    rw [hx, hy]
  simp only [mirror_point, Prod.mk.injEq]
  set a := y2 - y1 with ha_def
  set b := -(x2 - x1) with hb_def
  have hab : 0 < a * a + b * b := by
    rcases hne with h' | h'
    · nlinarith [mul_self_nonneg b, mul_self_pos.mpr h']
    · have hb0 : b ≠ 0 := by rw [hb_def]; exact neg_ne_zero.mpr h'
      nlinarith [mul_self_nonneg a, mul_self_pos.mpr hb0]
  set m := Real.sqrt (a * a + b * b) with hm_def
  have hm : 0 < m := Real.sqrt_pos.mpr hab
  have hm0 : m ≠ 0 := ne_of_gt hm
  have hm2 : m * m = a * a + b * b := Real.mul_self_sqrt (le_of_lt hab)
  have hnorm : (a / m) ^ 2 + (b / m) ^ 2 = 1 := by
    field_simp
    nlinarith [hm2]
  constructor
  · linear_combination
      (4 * (a / m) * ((a / m) * px + (b / m) * py + (-a * x1 - b * y1) / m)) * hnorm
  · linear_combination
      (4 * (b / m) * ((a / m) * px + (b / m) * py + (-a * x1 - b * y1) / m)) * hnorm

/-- Witness for C5: the mirror line from (0, 0) to (1, 0) applied twice to the
point (3, 4). -/
theorem C5_mirror_involution_witness :
    ((0 : ℝ), (0 : ℝ)) ≠ ((1 : ℝ), (0 : ℝ)) ∧
    mirror_point 0 0 1 0 (mirror_point 0 0 1 0 (3, 4)) = (3, 4) :=
  ⟨by norm_num [Prod.ext_iff], C5_mirror_involution 0 0 1 0 3 4 (by norm_num [Prod.ext_iff])⟩


/-- Claim C6, counterexample: mirroring the single point (2, 0, 1) across the
line through (0, 0, 0) and (1, 0) produces (2, 0, 0) — its z-coordinate is
replaced by the mirror line's z (0), not preserved (1). -/
theorem C6_counterexample :
    mirror_sketch_spline 0 0 0 1 0 [((2 : ℝ), (0 : ℝ), (1 : ℝ))] =
      [((2 : ℝ), (0 : ℝ), (0 : ℝ))] ∧
    ¬ ∀ q ∈ mirror_sketch_spline 0 0 0 1 0 [((2 : ℝ), (0 : ℝ), (1 : ℝ))],
        q.2.2 = 1 := by
  have hmp : mirror_point 0 0 1 0 ((2 : ℝ), (0 : ℝ)) = ((2 : ℝ), (0 : ℝ)) := by
    simp only [mirror_point]
    norm_num [Prod.ext_iff]
  constructor
  · simp [mirror_sketch_spline, hmp]
  · simp [mirror_sketch_spline, hmp]

/-- Claim C6, amended: `mirror_sketch_spline` produces exactly one output
point per input point, in the same input order, with x and y reflected by the
`mirror_point` formula; each output point's z-coordinate is the mirror line's
start-point z (`z1`) rather than the corresponding input point's — the two
agree exactly when the input point has z = z1 (as all points of one sketch
plane do). -/
theorem C6_mirror_structure_amended (x1 y1 z1 x2 y2 : ℝ) (pts : List (ℝ × ℝ × ℝ)) :
    (mirror_sketch_spline x1 y1 z1 x2 y2 pts).length = pts.length ∧
    (∀ i (h : i < pts.length),
      (mirror_sketch_spline x1 y1 z1 x2 y2 pts)[i]? =
        some ((mirror_point x1 y1 x2 y2 ((pts[i]).1, (pts[i]).2.1)).1,
          (mirror_point x1 y1 x2 y2 ((pts[i]).1, (pts[i]).2.1)).2, z1)) ∧
    (∀ q ∈ mirror_sketch_spline x1 y1 z1 x2 y2 pts, q.2.2 = z1) := by
  refine ⟨?_, ?_, ?_⟩
  · rw [mirror_sketch_spline, List.length_map]
  · intro i h
    rw [mirror_sketch_spline, List.getElem?_map, List.getElem?_eq_getElem h]
    rfl
  · intro q hq
    rw [mirror_sketch_spline, List.mem_map] at hq
    obtain ⟨p, _, hp⟩ := hq
    rw [← hp]

/-- Witness for C6: the amended structure facts for the single point
(2, 3, 7) mirrored across the line from (0, 0, 5) to (1, 0). -/
theorem C6_mirror_structure_witness :
    (mirror_sketch_spline 0 0 5 1 0 [((2 : ℝ), (3 : ℝ), (7 : ℝ))]).length = 1 ∧
    (mirror_sketch_spline 0 0 5 1 0 [((2 : ℝ), (3 : ℝ), (7 : ℝ))])[0]? =
      some ((mirror_point 0 0 1 0 ((2 : ℝ), (3 : ℝ))).1,
        (mirror_point 0 0 1 0 ((2 : ℝ), (3 : ℝ))).2, 5) := by
  have h := C6_mirror_structure_amended 0 0 5 1 0 [((2 : ℝ), (3 : ℝ), (7 : ℝ))]
  refine ⟨by simpa using h.1, ?_⟩
  have h2 := h.2.1 0 (by norm_num)
  simpa using h2


/-- Inverting the rack validation cascade: acceptance implies every check in
the chain passed; in particular the pressure-angle, tooth-count and
fillet-bound conditions all hold. -/
theorem rack_validate_eq_none_facts (inp : RackInputs)
    (hnone : rack_validate inp = none) :
    ¬ inp.pressure_angle < 0 ∧ ¬ inp.pressure_angle > Real.pi / 4 ∧
    ¬ inp.number_of_teeth < 1 ∧
    ¬ inp.root_fillet_radius > tooth_thickness inp.module * 0.4 := by
  rw [rack_validate] at hnone
  have h1 : ¬ (inp.name.length = 0) := by
    intro h; rw [if_pos h] at hnone; exact Option.some_ne_none _ hnone
  rw [if_neg h1] at hnone
  have h2 : ¬ (inp.name_valid = false) := by
    intro h; rw [if_pos h] at hnone; exact Option.some_ne_none _ hnone
  rw [if_neg h2] at hnone
  have h3 : ¬ (inp.name_taken = true) := by
    intro h; rw [if_pos h] at hnone; exact Option.some_ne_none _ hnone
  rw [if_neg h3] at hnone
  have h4 : ¬ (inp.pressure_angle < 0) := by
    intro h; rw [if_pos h] at hnone; exact Option.some_ne_none _ hnone
  rw [if_neg h4] at hnone
  have h5 : ¬ (inp.pressure_angle > Real.pi / 4) := by
    intro h; rw [if_pos h] at hnone; exact Option.some_ne_none _ hnone
  rw [if_neg h5] at hnone
  have h6 : ¬ (inp.pressure_angle_ok = false) := by
    intro h; rw [if_pos h] at hnone; exact Option.some_ne_none _ hnone
  rw [if_neg h6] at hnone
  have h7 : ¬ (inp.number_of_teeth < 1) := by
    intro h; rw [if_pos h] at hnone; exact Option.some_ne_none _ hnone
  rw [if_neg h7] at hnone
  have h8 : ¬ (inp.number_of_teeth_ok = false) := by
    intro h; rw [if_pos h] at hnone; exact Option.some_ne_none _ hnone
  rw [if_neg h8] at hnone
  have h9 : ¬ (inp.root_fillet_radius_ok = false) := by
    intro h; rw [if_pos h] at hnone; exact Option.some_ne_none _ hnone
  rw [if_neg h9] at hnone
  have h10 : ¬ (inp.module_ok = false) := by
    intro h; rw [if_pos h] at hnone; exact Option.some_ne_none _ hnone
  rw [if_neg h10] at hnone
  have h11 : ¬ (inp.thickness_ok = false) := by
    intro h; rw [if_pos h] at hnone; exact Option.some_ne_none _ hnone
  rw [if_neg h11] at hnone
  have h12 : ¬ (inp.backlash_ok = false) := by
    intro h; rw [if_pos h] at hnone; exact Option.some_ne_none _ hnone
  rw [if_neg h12] at hnone
  have h13 : ¬ (inp.root_fillet_radius > tooth_thickness inp.module * 0.4) := by
    intro h; rw [if_pos h] at hnone; exact Option.some_ne_none _ hnone
  exact ⟨h4, h5, h7, h13⟩

/-- Claim C8: whenever the root fillet radius exceeds
`0.4 * tooth_thickness` (`tooth_thickness = π * module / 2`, a function of the
module alone), the rack validation rejects the configuration (it never
accepts, and it has no clamping path), and it accepts only configurations at
or below the bound; concretely, root fillet radius 4 mm with module 5 mm
(internal values 0.4 and 0.5 cm, bound 0.1·π cm ≈ 3.1416 mm) is rejected with
the fillet-too-large error. -/
theorem C8_fillet_bound_enforced :
    (∀ inp : RackInputs, tooth_thickness inp.module * 0.4 < inp.root_fillet_radius →
      rack_validate inp ≠ none) ∧
    (∀ inp : RackInputs, rack_validate inp = none →
      inp.root_fillet_radius ≤ tooth_thickness inp.module * 0.4) ∧
    rack_validate c8_inputs = some RackError.filletTooLarge := by
  refine ⟨?_, ?_, ?_⟩
  · intro inp hbound hnone
    exact (rack_validate_eq_none_facts inp hnone).2.2.2 hbound
  · intro inp hnone
    exact not_lt.mp (rack_validate_eq_none_facts inp hnone).2.2.2
  · have hlen0 : ¬ ("Rack1".length = 0) := by decide
    have hpa0 : ¬ (Real.pi / 9 < 0) := not_lt.mpr (by positivity)
    have hpa45 : ¬ (Real.pi / 9 > Real.pi / 4) := by
      rw [not_lt]
      linarith [Real.pi_pos]
    have hteeth : ¬ ((10 : ℝ) < 1) := by norm_num
    have hbound : (0.4 : ℝ) > tooth_thickness 0.5 * 0.4 := by
      rw [tooth_thickness, pitch]
      linarith [Real.pi_lt_four]
    dsimp only [rack_validate, c8_inputs]
    rw [if_neg hlen0, if_neg (by decide : ¬ (true = false)),
      if_neg (by decide : ¬ (false = true)), if_neg hpa0, if_neg hpa45,
      if_neg (by decide : ¬ (true = false)), if_neg hteeth,
      if_neg (by decide : ¬ (true = false)), if_neg (by decide : ¬ (true = false)),
      if_neg (by decide : ¬ (true = false)), if_neg (by decide : ¬ (true = false)),
      if_neg (by decide : ¬ (true = false)), if_pos hbound]

/-- Witness for C8: the general rejection fact applied to the concrete
scenario inputs, whose fillet radius exceeds the bound because π < 4. -/
theorem C8_fillet_bound_witness : rack_validate c8_inputs ≠ none :=
  C8_fillet_bound_enforced.1 c8_inputs
    (by
      dsimp only [c8_inputs]
      rw [tooth_thickness, pitch]
      linarith [Real.pi_lt_four])


/-- Claim C9, counterexample: a pressure angle of exactly 0° lies outside the
interval (0°, 45°], yet the rack validation accepts it — the code rejects only
`pressure_angle < 0` (rack/entry.py line 243), so the configuration with
pressure angle 0 and otherwise valid inputs passes validation. -/
theorem C9_counterexample :
    c9_inputs.pressure_angle ∉ Set.Ioc (0 : ℝ) (Real.pi / 4) ∧
    rack_validate c9_inputs = none := by
  constructor
  · dsimp only [c9_inputs]
    norm_num [Set.mem_Ioc]
  · have hlen0 : ¬ ("Rack1".length = 0) := by decide
    have hpa0 : ¬ ((0 : ℝ) < 0) := lt_irrefl 0
    have hpa45 : ¬ ((0 : ℝ) > Real.pi / 4) := not_lt.mpr (by positivity)
    have hteeth : ¬ ((10 : ℝ) < 1) := by norm_num
    have hbound : ¬ ((0.1 : ℝ) > tooth_thickness 0.5 * 0.4) := by
      rw [not_lt, tooth_thickness, pitch]
      linarith [Real.pi_gt_three]
    dsimp only [rack_validate, c9_inputs]
    rw [if_neg hlen0, if_neg (by decide : ¬ (true = false)),
      if_neg (by decide : ¬ (false = true)), if_neg hpa0, if_neg hpa45,
      if_neg (by decide : ¬ (true = false)), if_neg hteeth,
      if_neg (by decide : ¬ (true = false)), if_neg (by decide : ¬ (true = false)),
      if_neg (by decide : ¬ (true = false)), if_neg (by decide : ¬ (true = false)),
      if_neg (by decide : ¬ (true = false)), if_neg hbound]

/-- Claim C9, amended: the rack validation rejects every configuration with
pressure angle < 0° or > 45° or fewer than 1 tooth, and accepts only
configurations with pressure angle in the closed interval [0°, 45°] and at
least 1 tooth (so the boundary value 0° is accepted, unlike the claimed open
bound); the spur-gear command's validation checks only that the pressure
angle is ≥ 0. -/
theorem C9_validation_bounds_amended :
    (∀ inp : RackInputs,
      (inp.pressure_angle < 0 ∨ Real.pi / 4 < inp.pressure_angle ∨
        inp.number_of_teeth < 1) → rack_validate inp ≠ none) ∧
    (∀ inp : RackInputs, rack_validate inp = none →
      0 ≤ inp.pressure_angle ∧ inp.pressure_angle ≤ Real.pi / 4 ∧
        1 ≤ inp.number_of_teeth) ∧
    (∀ pa : ℝ, spur_gear_inputs_valid pa ↔ 0 ≤ pa) := by
  refine ⟨?_, ?_, ?_⟩
  · intro inp hout hnone
    obtain ⟨h4, h5, h7, _⟩ := rack_validate_eq_none_facts inp hnone
    rcases hout with h | h | h
    · exact h4 h
    · exact h5 h
    · exact h7 h
  · intro inp hnone
    obtain ⟨h4, h5, h7, _⟩ := rack_validate_eq_none_facts inp hnone
    exact ⟨not_lt.mp h4, not_lt.mp h5, not_lt.mp h7⟩
  · intro pa
    rw [spur_gear_inputs_valid, ge_iff_le]

/-- Witness for C9: the amended rejection fact at a configuration with a
negative pressure angle. -/
theorem C9_validation_bounds_witness :
    rack_validate ⟨"Rack1", true, false, -1, true, 10, true, 0.1, true, 0.5,
      true, true, true⟩ ≠ none :=
  C9_validation_bounds_amended.1 _ (Or.inl (by norm_num))

end YAGA
